import Mathlib

/-!
Shallow embedding of the simulation core of `src/main.py`
("Doors of Perception", a small pygame arcade game).

Modelling choices:
* pygame `Rect`s are axis-aligned boxes with rational coordinates
  (`Box`); `rect.right = x + w`, `rect.centerx = x + w/2`.
* `pygame.Rect.colliderect` is the strict AABB overlap test
  (`a.x < b.x + b.w ∧ b.x < a.x + a.w ∧ a.y < b.y + b.h ∧ b.y < a.y + a.h`);
  `pygame.sprite.spritecollide(s, g, dokill)` filters the group by that
  test and, when `dokill` is true, removes every collided member.
* sprite groups are lists in insertion order.
* each `update` method's mutations become a returned record; the
  `set_game_state` callback becomes a returned flag / `Option Reason`.
* image assets (which fix the sprite dimensions) are external files, so
  sprite sizes are parameters (`SpriteSizes`) of world construction.
-/

namespace Doors

/-- An axis-aligned box: pygame `Rect` with rational coordinates. -/
structure Box where
  x : ℚ
  y : ℚ
  w : ℚ
  h : ℚ
deriving DecidableEq, Repr

/-- pygame `rect.right = left + width`. -/
def Box.right (b : Box) : ℚ := b.x + b.w

/-- pygame `rect.centerx`. -/
def Box.centerx (b : Box) : ℚ := b.x + b.w / 2

/-- pygame `rect.centery`. -/
def Box.centery (b : Box) : ℚ := b.y + b.h / 2

/-- `image.get_rect(center=(cx, cy))`: a box of the image's size centred at the point. -/
def mkBoxCenter (w h cx cy : ℚ) : Box :=
  { x := cx - w / 2, y := cy - h / 2, w := w, h := h }

/-- pygame `Rect.colliderect`: strict AABB overlap test. -/
def intersects (a b : Box) : Bool :=
  decide (a.x < b.x + b.w) && decide (b.x < a.x + a.w) &&
  decide (a.y < b.y + b.h) && decide (b.y < a.y + a.h)

/-- A monster's fixed patrol axis (`direction` constructor argument,
`"horizontal"` or `"vertical"` in the source). -/
inductive Axis
  | horizontal
  | vertical
deriving DecidableEq, Repr

/-- `Monster`: a box, a signed speed and a fixed patrol axis (main.py:49-59). -/
structure Monster where
  box : Box
  speed : ℚ
  direction : Axis
deriving DecidableEq, Repr

/-- The effects of one `Monster.update` call (main.py:63-106): the
monster afterwards (`none` when it was killed by a portal), the portal
group afterwards, the number of `scoreboard.ghost_busted()` calls made,
and whether `set_game_state(GAME_OVER, ...)` was called (player caught). -/
structure MonsterResult where
  monster : Option Monster
  portals : List Box
  busted : Nat
  caught : Bool
deriving DecidableEq, Repr

/-- The box after the monster's attempted translation along its axis
(`self.rect.x += self.speed` / `self.rect.y += self.speed`, main.py:82/91). -/
def Monster.movedBox (self : Monster) : Box :=
  match self.direction with
  | Axis.horizontal => { self.box with x := self.box.x + self.speed }
  | Axis.vertical => { self.box with y := self.box.y + self.speed }

/-- Movement resolution of `Monster.update` (main.py:75-96): translate
along the fixed axis; if the moved box overlaps any wall, revert the
translation and negate the speed (patrol bounce). -/
def Monster.moveResolve (self : Monster) (walls : List Box) : Monster :=
  if walls.any (fun wl => intersects self.movedBox wl) then
    { self with speed := -self.speed }
  else
    { self with box := self.movedBox }

/-- `Monster.update` (main.py:63-106). Order: (1) if the monster's box
intersects the player's box, zero the speed, signal game over and stop;
(2) otherwise move with wall bounce (`moveResolve`); (3) then
`spritecollide(self, portals, True)` removes every overlapping portal
and, if any, `ghost_busted()` is called once and the monster is killed. -/
def Monster.update (self : Monster) (player : Box) (walls : List Box)
    (portals : List Box) : MonsterResult :=
  if intersects player self.box then
    { monster := some { self with speed := 0 }, portals := portals,
      busted := 0, caught := true }
  else
    let bounced := self.moveResolve walls
    let hitAny := portals.any (fun q => intersects bounced.box q)
    { monster := if hitAny then none else some bounced,
      portals := portals.filter (fun q => !(intersects bounced.box q)),
      busted := if hitAny then 1 else 0,
      caught := false }

/-- The held arrow-key state read by `pygame.key.get_pressed()`. -/
structure Keys where
  left : Bool
  right : Bool
  up : Bool
  down : Bool
deriving DecidableEq, Repr

/-- `Player`: a box and a positive speed (main.py:109-116). -/
structure Player where
  box : Box
  speed : ℚ
deriving DecidableEq, Repr

/-- The effects of one `Player.update` call (main.py:120-162): the player
afterwards, the coin group afterwards, the number of
`scoreboard.coin_collected()` calls made (0 or 1), and whether
`set_game_state(GAME_OVER, ...)` was called (exit reached). -/
structure PlayerResult where
  player : Player
  coins : List Box
  coinsCollectedInc : Nat
  reachedExit : Bool
deriving DecidableEq, Repr

/-- Axis-separated movement of `Player.update` (main.py:131-154):
horizontal input (left before right) then wall revert on x, vertical
input (up before down) then wall revert on y. -/
def Player.moveResolve (self : Player) (keys : Keys) (walls : List Box) : Box :=
  let x1 := if keys.left then self.box.x - self.speed
            else if keys.right then self.box.x + self.speed
            else self.box.x
  let x2 := if walls.any (fun wl => intersects { self.box with x := x1 } wl)
            then self.box.x else x1
  let y1 := if keys.up then self.box.y - self.speed
            else if keys.down then self.box.y + self.speed
            else self.box.y
  let y2 := if walls.any (fun wl => intersects { self.box with x := x2, y := y1 } wl)
            then self.box.y else y1
  { self.box with x := x2, y := y2 }

/-- `Player.update` (main.py:120-162). Order: (1) if the player's right
edge exceeds 1050, signal game over (exit reached) and stop, the player
does not move and no coin is touched; (2) otherwise axis-separated
movement with wall revert; (3) then `spritecollide(self, coins, True)`
removes every overlapping coin and, if any, `coin_collected()` is called
exactly once. -/
def Player.update (self : Player) (keys : Keys) (walls : List Box)
    (coins : List Box) : PlayerResult :=
  if (1050 : ℚ) < self.box.right then
    { player := self, coins := coins, coinsCollectedInc := 0, reachedExit := true }
  else
    let newBox := self.moveResolve keys walls
    { player := { self with box := newBox },
      coins := coins.filter (fun c => !(intersects newBox c)),
      coinsCollectedInc := if coins.any (fun c => intersects newBox c) then 1 else 0,
      reachedExit := false }

/-- `Portal.update` (main.py:195-203): `spritecollide(self, monsters, True)`
removes every monster overlapping the portal; if any, `ghost_busted()` is
called once. The portal itself is not removed here. Returns the monster
group afterwards and the number of `ghost_busted()` calls. -/
def Portal.update (self : Box) (monsters : List Monster) : List Monster × Nat :=
  (monsters.filter (fun m => !(intersects self m.box)),
   if monsters.any (fun m => intersects self m.box) then 1 else 0)

/-- `Scoreboard` (main.py:208-241). -/
structure Scoreboard where
  coins_collected : ℤ
  time_left : ℚ
  ghosts_busted : ℤ
  portals_remaining : ℤ
  points : ℤ
deriving DecidableEq, Repr

/-- `Scoreboard.__init__` (main.py:209-214). -/
def Scoreboard.init : Scoreboard :=
  { coins_collected := 0, time_left := 100, ghosts_busted := 0,
    portals_remaining := 5, points := 0 }

/-- `Scoreboard.new_portal` (main.py:218-219): unconditional decrement. -/
def Scoreboard.new_portal (s : Scoreboard) : Scoreboard :=
  { s with portals_remaining := s.portals_remaining - 1 }

/-- `Scoreboard.ghost_busted` (main.py:221-222). -/
def Scoreboard.ghost_busted (s : Scoreboard) : Scoreboard :=
  { s with ghosts_busted := s.ghosts_busted + 1 }

/-- `Scoreboard.coin_collected` (main.py:224-225). -/
def Scoreboard.coin_collected (s : Scoreboard) : Scoreboard :=
  { s with coins_collected := s.coins_collected + 1 }

/-- `Scoreboard.is_time_up` (main.py:228-229). -/
def Scoreboard.is_time_up (s : Scoreboard) : Bool :=
  decide (s.time_left ≤ 0)

/-- `Scoreboard.update` (main.py:232-241): subtract 1/60 from
`time_left`, recompute `points`, and report whether the time-expired
game-over was signalled. -/
def Scoreboard.update (s : Scoreboard) : Scoreboard × Bool :=
  let s' := { s with time_left := s.time_left - 1 / 60,
                     points := s.coins_collected * 100 + s.ghosts_busted * 50 }
  (s', s'.is_time_up)

/-- `n` consecutive `Scoreboard.update` calls starting from `s`. -/
def updateIter (s : Scoreboard) : Nat → Scoreboard
  | 0 => s
  | n + 1 => ((updateIter s n).update).1

/-- `Portal.__init__` (main.py:183-192): build the box centred at the
given point and call `scoreboard.new_portal()` unconditionally. -/
def Portal.create (w h cx cy : ℚ) (sb : Scoreboard) : Box × Scoreboard :=
  (mkBoxCenter w h cx cy, sb.new_portal)

/-- The game-over reason messages of the source, as symbols:
`reachedExit` = "You made it out alive!" (main.py:126),
`caughtByMonster` = "You were discombobulated by a ghost!" (main.py:70),
`timeExpired` = "You ran out of time!" (main.py:240). -/
inductive Reason
  | reachedExit
  | caughtByMonster
  | timeExpired
deriving DecidableEq, Repr

/-- The game-state machine values (main.py:5-7). -/
inductive GState
  | start
  | playing
  | gameOver (reason : Reason)
deriving DecidableEq, Repr

/-- The live game objects of one session: the globals set by
`initialise_game_objects` (main.py:19-27). Exactly one player exists
(`pygame.sprite.GroupSingle`). -/
structure World where
  player : Player
  walls : List Box
  monsters : List Monster
  coins : List Box
  portals : List Box
  scoreboard : Scoreboard
deriving DecidableEq, Repr

/-- Dimensions of the image assets (robot.png, monster.png, coin.png,
door.png). The images are external files, so the sizes are parameters. -/
structure SpriteSizes where
  robotW : ℚ
  robotH : ℚ
  monsterW : ℚ
  monsterH : ℚ
  coinW : ℚ
  coinH : ℚ
  doorW : ℚ
  doorH : ℚ
deriving DecidableEq, Repr

/-- One monster of the fixed layout. -/
def mkMonster (sz : SpriteSizes) (cx cy speed : ℚ) (d : Axis) : Monster :=
  { box := mkBoxCenter sz.monsterW sz.monsterH cx cy, speed := speed, direction := d }

/-- One coin of the fixed layout. -/
def mkCoin (sz : SpriteSizes) (cx cy : ℚ) : Box :=
  mkBoxCenter sz.coinW sz.coinH cx cy

/-- `initialise_game_objects` (main.py:270-363): a fresh world built
from the fixed layout — fresh scoreboard, the player at (100, 200) with
speed 3, no portals, and the hand-authored monster, coin and wall lists
in source order. -/
def initialise_game_objects (sz : SpriteSizes) : World :=
  { player := { box := mkBoxCenter sz.robotW sz.robotH 100 200, speed := 3 }
  , walls :=
      [ ⟨50, 50, 1000, 5⟩
      , ⟨1050, 50, 5, 550⟩
      , ⟨50, 700, 1000, 5⟩
      , ⟨50, 50, 5, 650⟩
      , ⟨150, 150, 5, 550⟩
      , ⟨250, 150, 700, 5⟩
      , ⟨250, 150, 5, 250⟩
      , ⟨250, 500, 5, 100⟩
      , ⟨250, 600, 100, 5⟩
      , ⟨350, 500, 5, 100⟩
      , ⟨350, 250, 5, 150⟩
      , ⟨450, 150, 5, 450⟩
      , ⟨450, 600, 300, 5⟩
      , ⟨550, 500, 300, 5⟩
      , ⟨850, 500, 5, 200⟩
      , ⟨550, 150, 5, 250⟩
      , ⟨650, 250, 5, 250⟩
      , ⟨750, 150, 5, 250⟩
      , ⟨850, 250, 5, 150⟩
      , ⟨850, 250, 200, 5⟩
      , ⟨950, 400, 5, 200⟩ ]
  , monsters :=
      [ mkMonster sz 220 100 (23/10) Axis.horizontal
      , mkMonster sz 200 400 (21/10) Axis.vertical
      , mkMonster sz 300 450 (19/10) Axis.horizontal
      , mkMonster sz 400 225 2 Axis.vertical
      , mkMonster sz 490 650 (22/10) Axis.horizontal
      , mkMonster sz 500 200 2 Axis.vertical
      , mkMonster sz 630 550 (24/10) Axis.horizontal
      , mkMonster sz 600 450 (21/10) Axis.vertical
      , mkMonster sz 700 450 (19/10) Axis.horizontal
      , mkMonster sz 800 200 (19/10) Axis.horizontal
      , mkMonster sz 900 300 (21/10) Axis.horizontal
      , mkMonster sz 1000 625 2 Axis.vertical ]
  , coins :=
      [ mkCoin sz 100 100, mkCoin sz 100 535, mkCoin sz 100 625
      , mkCoin sz 200 200, mkCoin sz 200 505, mkCoin sz 200 625
      , mkCoin sz 300 100, mkCoin sz 300 200, mkCoin sz 300 415
      , mkCoin sz 300 625, mkCoin sz 400 335, mkCoin sz 400 425
      , mkCoin sz 500 200, mkCoin sz 500 100, mkCoin sz 500 425
      , mkCoin sz 500 625, mkCoin sz 600 415, mkCoin sz 600 525
      , mkCoin sz 700 200, mkCoin sz 800 200, mkCoin sz 800 425
      , mkCoin sz 800 535, mkCoin sz 900 325, mkCoin sz 900 425
      , mkCoin sz 900 625, mkCoin sz 1000 100, mkCoin sz 1000 200
      , mkCoin sz 1000 425 ]
  , portals := []
  , scoreboard := Scoreboard.init }

/-- Accumulator of the monster-update loop
(`monsters_group.update(...)`, main.py:508): monsters already processed
and still alive, the current portal group, the current scoreboard, and
the game-over reason signalled so far (`none` while still playing). -/
structure MPhase where
  survivors : List Monster
  portals : List Box
  sb : Scoreboard
  reason : Option Reason
deriving DecidableEq, Repr

/-- One step of the monster-update loop: run `Monster.update` for one
monster and fold its effects into the accumulator. The step never looks
at the accumulated `reason`: a game-over signalled by an earlier monster
does not stop later monsters from updating. -/
def monsterStep (player : Box) (walls : List Box) (a : MPhase) (m : Monster) : MPhase :=
  let r := m.update player walls a.portals
  { survivors := a.survivors ++ r.monster.toList
  , portals := r.portals
  , sb := if r.busted = 1 then a.sb.ghost_busted else a.sb
  , reason := if r.caught then some Reason.caughtByMonster else a.reason }

/-- `monsters_group.update(player, walls, portals, set_game_state)`
(main.py:508): every monster updates, in group (creation) order. -/
def monstersPhase (player : Box) (walls : List Box) (monsters : List Monster)
    (portals : List Box) (sb : Scoreboard) (g : Option Reason) : MPhase :=
  monsters.foldl (monsterStep player walls) ⟨[], portals, sb, g⟩

/-- One step of the portal-update loop: run `Portal.update` for one
portal and fold its effects into the (monsters, scoreboard) pair. -/
def portalStep (a : List Monster × Scoreboard) (p : Box) : List Monster × Scoreboard :=
  let r := Portal.update p a.1
  (r.1, if r.2 = 1 then a.2.ghost_busted else a.2)

/-- `portals_group.update(monsters_group)` (main.py:515): every portal
runs `Portal.update` against the current monster group. -/
def portalsPhase (portals : List Box) (monsters : List Monster)
    (sb : Scoreboard) : List Monster × Scoreboard :=
  portals.foldl portalStep (monsters, sb)

/-- The part of a playing-state frame after the player phase, entered
only while still playing (the `if current_game_state ==
GAME_STATE_PLAYING` block, main.py:506-538): monster updates; if still
playing, coin (no-op), portal and scoreboard updates; if still playing,
render. Returns the world afterwards, the state afterwards, and whether
the frame was rendered. -/
def tickAfterPlayer (w1 : World) : World × GState × Bool :=
  let mp := monstersPhase w1.player.box w1.walls w1.monsters w1.portals w1.scoreboard none
  let w2 : World := { w1 with monsters := mp.survivors, portals := mp.portals, scoreboard := mp.sb }
  match mp.reason with
  | some r => (w2, GState.gameOver r, false)
  | none =>
    let pp := portalsPhase w2.portals w2.monsters w2.scoreboard
    let su := pp.2.update
    let w3 : World := { w2 with monsters := pp.1, scoreboard := su.1 }
    if su.2 then (w3, GState.gameOver Reason.timeExpired, false)
    else (w3, GState.playing, true)

/-- One frame of the `GAME_STATE_PLAYING` branch of `main`
(main.py:494-538): player update, then — unless the player phase
already left the playing state — the rest of the frame
(`tickAfterPlayer`). Returns the world afterwards, the state
afterwards, and whether the frame was rendered. -/
def tick (keys : Keys) (w : World) : World × GState × Bool :=
  let pr := w.player.update keys w.walls w.coins
  let sb0 := if pr.coinsCollectedInc = 1 then w.scoreboard.coin_collected else w.scoreboard
  let w1 : World := { w with player := pr.player, coins := pr.coins, scoreboard := sb0 }
  if pr.reachedExit then
    (w1, GState.gameOver Reason.reachedExit, false)
  else
    tickAfterPlayer w1

/-- The key-down events the state machine reacts to (main.py:455-484). -/
inductive GKey
  | kq
  | kr
  | kspace
  | other
deriving DecidableEq, Repr

/-- The `KEYDOWN` handling of `main` (main.py:455-484): Q quits in any
state; in Start, Space or R rebuilds the world and enters Playing; in
Playing, R rebuilds the world (restart) and Space places a portal at the
player's centre when `portals_remaining > 0` (silently refused
otherwise); in GameOver, R rebuilds the world and enters Playing.
Returns the state, the world and the `running` flag afterwards. -/
def handle_keydown (sz : SpriteSizes) (k : GKey) (st : GState) (w : World) :
    GState × World × Bool :=
  if k = GKey.kq then (st, w, false)
  else
    match st with
    | GState.start =>
      if k = GKey.kspace ∨ k = GKey.kr then
        (GState.playing, initialise_game_objects sz, true)
      else (st, w, true)
    | GState.playing =>
      if k = GKey.kr then (GState.playing, initialise_game_objects sz, true)
      else if k = GKey.kspace then
        if 0 < w.scoreboard.portals_remaining then
          let pc := Portal.create sz.doorW sz.doorH w.player.box.centerx
            w.player.box.centery w.scoreboard
          (st, { w with portals := w.portals ++ [pc.1], scoreboard := pc.2 }, true)
        else (st, w, true)
      else (st, w, true)
    | GState.gameOver _ =>
      if k = GKey.kr then (GState.playing, initialise_game_objects sz, true)
      else (st, w, true)

/-! Concrete example data used by witnesses and counterexamples. -/

/-- No arrow key held. -/
def keysNone : Keys := ⟨false, false, false, false⟩

/-- Concrete sprite sizes for witnesses (all images 10×10). -/
def exSizes : SpriteSizes := ⟨10, 10, 10, 10, 10, 10, 10, 10⟩

/-- A world whose player overlaps two distinct coins at once. -/
def exW2 : World :=
  ⟨⟨⟨0, 0, 10, 10⟩, 3⟩, [], [], [⟨0, 0, 4, 4⟩, ⟨6, 6, 4, 4⟩], [], Scoreboard.init⟩

/-- A world whose player overlaps a coin and a monster at once. -/
def exW3 : World :=
  ⟨⟨⟨0, 0, 10, 10⟩, 3⟩, [], [⟨⟨5, 5, 10, 10⟩, 2, Axis.horizontal⟩],
   [⟨0, 0, 4, 4⟩], [], Scoreboard.init⟩

/-- A world whose player is past the exit line (right edge 1055 > 1050). -/
def exW5 : World :=
  ⟨⟨⟨1045, 0, 10, 10⟩, 3⟩, [], [], [], [], Scoreboard.init⟩

/-- A world with portal budget exhausted (`portals_remaining = 0`). -/
def exW7zero : World :=
  ⟨⟨⟨0, 0, 10, 10⟩, 3⟩, [], [], [], [], ⟨0, 100, 0, 0, 0⟩⟩

/-- A world where the first monster catches the player and the second
monster walks into a portal in the same tick. -/
def exW10 : World :=
  ⟨⟨⟨0, 0, 10, 10⟩, 3⟩, [],
   [⟨⟨5, 5, 10, 10⟩, 2, Axis.horizontal⟩, ⟨⟨50, 0, 10, 10⟩, 2, Axis.horizontal⟩],
   [], [⟨55, 0, 10, 10⟩], Scoreboard.init⟩

/-- A world with no coins, monsters, walls or portals: a tick stays in
the playing state. -/
def exWquiet : World :=
  ⟨⟨⟨0, 0, 10, 10⟩, 3⟩, [], [], [], [], Scoreboard.init⟩

/-! Helper lemmas. -/

@[simp]
theorem ghost_busted_coins (s : Scoreboard) :
    s.ghost_busted.coins_collected = s.coins_collected := rfl

@[simp]
theorem ghost_busted_time (s : Scoreboard) :
    s.ghost_busted.time_left = s.time_left := rfl

@[simp]
theorem ghost_busted_portalsRem (s : Scoreboard) :
    s.ghost_busted.portals_remaining = s.portals_remaining := rfl

@[simp]
theorem ghost_busted_points (s : Scoreboard) :
    s.ghost_busted.points = s.points := rfl

@[simp]
theorem coin_collected_time (s : Scoreboard) :
    s.coin_collected.time_left = s.time_left := rfl

@[simp]
theorem coin_collected_ghosts (s : Scoreboard) :
    s.coin_collected.ghosts_busted = s.ghosts_busted := rfl

@[simp]
theorem coin_collected_portalsRem (s : Scoreboard) :
    s.coin_collected.portals_remaining = s.portals_remaining := rfl

@[simp]
theorem sb_update_coins (s : Scoreboard) :
    ((s.update).1).coins_collected = s.coins_collected := rfl

@[simp]
theorem sb_update_ghosts (s : Scoreboard) :
    ((s.update).1).ghosts_busted = s.ghosts_busted := rfl

@[simp]
theorem sb_update_portalsRem (s : Scoreboard) :
    ((s.update).1).portals_remaining = s.portals_remaining := rfl

/-- The scoreboard produced by one monster step is either untouched or
`ghost_busted` of the previous one. -/
theorem monsterStep_sb (p : Box) (ws : List Box) (a : MPhase) (m : Monster) :
    (monsterStep p ws a m).sb = a.sb ∨ (monsterStep p ws a m).sb = a.sb.ghost_busted := by
  unfold monsterStep
  dsimp only
  split
  · right; rfl
  · left; rfl

/-- Any scoreboard projection fixed by `ghost_busted` is preserved by
the whole monster-update loop. -/
theorem mphase_foldl_sb_proj {α : Type} (f : Scoreboard → α)
    (hf : ∀ s, f s.ghost_busted = f s) (p : Box) (ws : List Box) :
    ∀ (ms : List Monster) (a : MPhase),
      f ((ms.foldl (monsterStep p ws) a).sb) = f a.sb := by
  intro ms
  induction ms with
  | nil => intro a; rfl
  | cons m t ih =>
    intro a
    rw [List.foldl_cons, ih]
    rcases monsterStep_sb p ws a m with h | h
    · rw [h]
    · rw [h, hf]

/-- The scoreboard produced by one portal step is either untouched or
`ghost_busted` of the previous one. -/
theorem portalStep_sb (a : List Monster × Scoreboard) (p : Box) :
    (portalStep a p).2 = a.2 ∨ (portalStep a p).2 = a.2.ghost_busted := by
  unfold portalStep
  dsimp only
  split
  · right; rfl
  · left; rfl

/-- Any scoreboard projection fixed by `ghost_busted` is preserved by
the whole portal-update loop. -/
theorem pphase_foldl_sb_proj {α : Type} (f : Scoreboard → α)
    (hf : ∀ s, f s.ghost_busted = f s) :
    ∀ (ps : List Box) (a : List Monster × Scoreboard),
      f ((ps.foldl portalStep a).2) = f a.2 := by
  intro ps
  induction ps with
  | nil => intro a; rfl
  | cons p t ih =>
    intro a
    rw [List.foldl_cons, ih]
    rcases portalStep_sb a p with h | h
    · rw [h]
    · rw [h, hf]

/-- The monster-update loop treats every monster the same whatever
game-over reason has accumulated so far: the surviving monsters, the
portal group and the scoreboard it produces do not depend on the
`reason` field of the accumulator. -/
theorem mphase_foldl_reason_indep (p : Box) (ws : List Box) :
    ∀ (ms : List Monster) (a b : MPhase),
      a.survivors = b.survivors → a.portals = b.portals → a.sb = b.sb →
      (ms.foldl (monsterStep p ws) a).survivors = (ms.foldl (monsterStep p ws) b).survivors ∧
      (ms.foldl (monsterStep p ws) a).portals = (ms.foldl (monsterStep p ws) b).portals ∧
      (ms.foldl (monsterStep p ws) a).sb = (ms.foldl (monsterStep p ws) b).sb := by
  intro ms
  induction ms with
  | nil => intro a b h1 h2 h3; exact ⟨h1, h2, h3⟩
  | cons m t ih =>
    intro a b h1 h2 h3
    rw [List.foldl_cons, List.foldl_cons]
    apply ih
    · show (monsterStep p ws a m).survivors = (monsterStep p ws b m).survivors
      unfold monsterStep
      dsimp only
      rw [h1, h2]
    · show (monsterStep p ws a m).portals = (monsterStep p ws b m).portals
      unfold monsterStep
      dsimp only
      rw [h2]
    · show (monsterStep p ws a m).sb = (monsterStep p ws b m).sb
      unfold monsterStep
      dsimp only
      rw [h2, h3]

@[simp]
theorem sb_update_points (s : Scoreboard) :
    ((s.update).1).points = s.coins_collected * 100 + s.ghosts_busted * 50 := rfl

theorem monstersPhase_sb_coins (p : Box) (ws : List Box) (ms : List Monster)
    (ports : List Box) (sb : Scoreboard) (g : Option Reason) :
    (monstersPhase p ws ms ports sb g).sb.coins_collected = sb.coins_collected :=
  mphase_foldl_sb_proj (fun s => s.coins_collected) (fun _ => rfl) p ws ms ⟨[], ports, sb, g⟩

theorem monstersPhase_sb_time (p : Box) (ws : List Box) (ms : List Monster)
    (ports : List Box) (sb : Scoreboard) (g : Option Reason) :
    (monstersPhase p ws ms ports sb g).sb.time_left = sb.time_left :=
  mphase_foldl_sb_proj (fun s => s.time_left) (fun _ => rfl) p ws ms ⟨[], ports, sb, g⟩

theorem monstersPhase_sb_portalsRem (p : Box) (ws : List Box) (ms : List Monster)
    (ports : List Box) (sb : Scoreboard) (g : Option Reason) :
    (monstersPhase p ws ms ports sb g).sb.portals_remaining = sb.portals_remaining :=
  mphase_foldl_sb_proj (fun s => s.portals_remaining) (fun _ => rfl) p ws ms ⟨[], ports, sb, g⟩

theorem portalsPhase_sb_coins (ps : List Box) (ms : List Monster) (sb : Scoreboard) :
    (portalsPhase ps ms sb).2.coins_collected = sb.coins_collected :=
  pphase_foldl_sb_proj (fun s => s.coins_collected) (fun _ => rfl) ps (ms, sb)

theorem portalsPhase_sb_portalsRem (ps : List Box) (ms : List Monster) (sb : Scoreboard) :
    (portalsPhase ps ms sb).2.portals_remaining = sb.portals_remaining :=
  pphase_foldl_sb_proj (fun s => s.portals_remaining) (fun _ => rfl) ps (ms, sb)

/-- The non-player phases never touch the coin group. -/
theorem tickAfterPlayer_coins (w1 : World) :
    (tickAfterPlayer w1).1.coins = w1.coins := by
  unfold tickAfterPlayer
  dsimp only
  rcases hr : (monstersPhase w1.player.box w1.walls w1.monsters w1.portals
      w1.scoreboard none).reason with _ | r
  · dsimp only
    split <;> rfl
  · rfl

/-- The non-player phases never touch `coins_collected`. -/
theorem tickAfterPlayer_sb_coins (w1 : World) :
    (tickAfterPlayer w1).1.scoreboard.coins_collected = w1.scoreboard.coins_collected := by
  unfold tickAfterPlayer
  dsimp only
  rcases hr : (monstersPhase w1.player.box w1.walls w1.monsters w1.portals
      w1.scoreboard none).reason with _ | r
  · dsimp only
    split
    all_goals simp [portalsPhase_sb_coins, monstersPhase_sb_coins]
  · simp [monstersPhase_sb_coins]

/-- The non-player phases never touch `portals_remaining`. -/
theorem tickAfterPlayer_sb_portalsRem (w1 : World) :
    (tickAfterPlayer w1).1.scoreboard.portals_remaining = w1.scoreboard.portals_remaining := by
  unfold tickAfterPlayer
  dsimp only
  rcases hr : (monstersPhase w1.player.box w1.walls w1.monsters w1.portals
      w1.scoreboard none).reason with _ | r
  · dsimp only
    split
    all_goals simp [portalsPhase_sb_portalsRem, monstersPhase_sb_portalsRem]
  · simp [monstersPhase_sb_portalsRem]

/-- If the frame ends still playing, the scoreboard went through
`Scoreboard.update` last, so `points` is freshly recomputed. -/
theorem tickAfterPlayer_playing_points (w1 : World)
    (h : (tickAfterPlayer w1).2.1 = GState.playing) :
    (tickAfterPlayer w1).1.scoreboard.points =
      (tickAfterPlayer w1).1.scoreboard.coins_collected * 100 +
        (tickAfterPlayer w1).1.scoreboard.ghosts_busted * 50 := by
  unfold tickAfterPlayer at h ⊢
  dsimp only at h ⊢
  rcases hr : (monstersPhase w1.player.box w1.walls w1.monsters w1.portals
      w1.scoreboard none).reason with _ | r
  · dsimp only
    split <;> simp
  · rw [hr] at h
    dsimp only at h
    exact absurd h (by simp)

/-- If a frame's state after the monster phase is caught-by-monster,
the frame's result is exactly the monster-phase output: no portal or
scoreboard update, no render. -/
theorem tickAfterPlayer_caught (w1 : World)
    (h : (tickAfterPlayer w1).2.1 = GState.gameOver Reason.caughtByMonster) :
    tickAfterPlayer w1 =
      ({ w1 with
          monsters := (monstersPhase w1.player.box w1.walls w1.monsters w1.portals
            w1.scoreboard none).survivors,
          portals := (monstersPhase w1.player.box w1.walls w1.monsters w1.portals
            w1.scoreboard none).portals,
          scoreboard := (monstersPhase w1.player.box w1.walls w1.monsters w1.portals
            w1.scoreboard none).sb },
       GState.gameOver Reason.caughtByMonster, false) := by
  unfold tickAfterPlayer at h ⊢
  dsimp only at h ⊢
  rcases hr : (monstersPhase w1.player.box w1.walls w1.monsters w1.portals
      w1.scoreboard none).reason with _ | r
  · rw [hr] at h
    dsimp only at h
    split at h
    · exact absurd h (by simp)
    · exact absurd h (by simp)
  · rw [hr] at h
    dsimp only at h
    obtain rfl : r = Reason.caughtByMonster := by
      injection h
    rfl

/-- When a tick ends caught-by-monster, the exit branch of `tick` was
not taken. -/
theorem tick_caught_after_player (keys : Keys) (w : World)
    (h : (tick keys w).2.1 = GState.gameOver Reason.caughtByMonster) :
    tick keys w =
      tickAfterPlayer
        { w with
            player := (w.player.update keys w.walls w.coins).player,
            coins := (w.player.update keys w.walls w.coins).coins,
            scoreboard :=
              if (w.player.update keys w.walls w.coins).coinsCollectedInc = 1
              then w.scoreboard.coin_collected else w.scoreboard } := by
  unfold tick at h ⊢
  dsimp only at h ⊢
  by_cases hex : (w.player.update keys w.walls w.coins).reachedExit = true
  · rw [if_pos hex] at h
    exact absurd h (by simp)
  · rw [if_neg hex]

/-- `tick` never changes `portals_remaining`. -/
theorem tick_sb_portalsRem (keys : Keys) (w : World) :
    (tick keys w).1.scoreboard.portals_remaining = w.scoreboard.portals_remaining := by
  unfold tick
  dsimp only
  split
  · show (if (w.player.update keys w.walls w.coins).coinsCollectedInc = 1
        then w.scoreboard.coin_collected else w.scoreboard).portals_remaining = _
    split <;> rfl
  · rw [tickAfterPlayer_sb_portalsRem]
    show (if (w.player.update keys w.walls w.coins).coinsCollectedInc = 1
        then w.scoreboard.coin_collected else w.scoreboard).portals_remaining = _
    split <;> rfl

/-- If a tick ends still playing, the scoreboard's `points` was just
recomputed by `Scoreboard.update`. -/
theorem tick_playing_points (keys : Keys) (w : World)
    (h : (tick keys w).2.1 = GState.playing) :
    (tick keys w).1.scoreboard.points =
      (tick keys w).1.scoreboard.coins_collected * 100 +
        (tick keys w).1.scoreboard.ghosts_busted * 50 := by
  unfold tick at h ⊢
  dsimp only at h ⊢
  by_cases hex : (w.player.update keys w.walls w.coins).reachedExit = true
  · rw [if_pos hex] at h
    exact absurd h (by simp)
  · rw [if_neg hex] at h ⊢
    exact tickAfterPlayer_playing_points _ h

/-! Claim theorems. -/

/-- C1 (counterexample): the claim says a Monster overlapping a live
Portal dies, `ghosts_busted` increments by 1, and the Portal remains in
the live set. At this concrete input the monster moves onto the only
live portal: the monster dies and `ghost_busted` is called once, but the
portal group afterwards is empty — `spritecollide(self, portals, True)`
in `Monster.update` (main.py:102) removes the portal, so it does not
remain. -/
theorem claim_C1_counterexample :
    Monster.update ⟨⟨20, 0, 10, 10⟩, 2, Axis.horizontal⟩ ⟨500, 500, 10, 10⟩ []
      [⟨25, 0, 10, 10⟩] = ⟨none, [], 1, false⟩ := by
  with_unfolding_all decide

/-- C1 (amended): for every Monster that, after its movement resolution,
overlaps a live Portal (and did not collide with the Player), the
Monster is removed from the live set, `ghosts_busted` increments by
exactly 1, and every overlapping Portal is removed from the live set as
well (`dokill=True`); only the non-overlapping portals remain. -/
theorem claim_C1 (m : Monster) (p : Box) (ws ps : List Box)
    (h1 : intersects p m.box = false)
    (h2 : ps.any (fun q => intersects (m.moveResolve ws).box q) = true) :
    Monster.update m p ws ps =
      ⟨none, ps.filter (fun q => !(intersects (m.moveResolve ws).box q)), 1, false⟩ := by
  simp [Monster.update, h1, h2]

/-- C1 witness: the amended theorem at a concrete input. -/
theorem claim_C1_witness :
    intersects (⟨500, 500, 10, 10⟩ : Box) (⟨0, 0, 10, 10⟩ : Box) = false ∧
    ([(⟨5, 0, 10, 10⟩ : Box)].any (fun q =>
      intersects ((⟨⟨0, 0, 10, 10⟩, 2, Axis.horizontal⟩ : Monster).moveResolve []).box q)
      = true) ∧
    Monster.update ⟨⟨0, 0, 10, 10⟩, 2, Axis.horizontal⟩ ⟨500, 500, 10, 10⟩ []
        [⟨5, 0, 10, 10⟩] =
      ⟨none,
       [(⟨5, 0, 10, 10⟩ : Box)].filter (fun q =>
         !(intersects ((⟨⟨0, 0, 10, 10⟩, 2, Axis.horizontal⟩ : Monster).moveResolve []).box q)),
       1, false⟩ :=
  ⟨by with_unfolding_all decide, by with_unfolding_all decide,
   claim_C1 ⟨⟨0, 0, 10, 10⟩, 2, Axis.horizontal⟩ ⟨500, 500, 10, 10⟩ []
     [⟨5, 0, 10, 10⟩] (by with_unfolding_all decide) (by with_unfolding_all decide)⟩

/-- C4: `time_left` is monotonically non-increasing — each
`Scoreboard.update` subtracts exactly 1/60 and no other scoreboard
mutation (`coin_collected`, `ghost_busted`, `new_portal`) touches
`time_left` — and the time-expired game-over is signalled exactly when
the decremented `time_left` first reaches ≤ 0: starting from the fresh
scoreboard, update `n + 1` signals time-expired iff `6000 ≤ n + 1`. -/
theorem claim_C4 (s : Scoreboard) (n : ℕ) :
    ((s.update).1.time_left = s.time_left - 1 / 60) ∧
    ((s.update).1.time_left ≤ s.time_left) ∧
    (s.coin_collected.time_left = s.time_left) ∧
    (s.ghost_busted.time_left = s.time_left) ∧
    (s.new_portal.time_left = s.time_left) ∧
    ((s.update).2 = true ↔ (s.update).1.time_left ≤ 0) ∧
    ((updateIter Scoreboard.init n).time_left = 100 - n / 60) ∧
    (((updateIter Scoreboard.init n).update).2 = true ↔ 6000 ≤ n + 1) := by
  have hstep : ∀ t : Scoreboard, (t.update).1.time_left = t.time_left - 1 / 60 :=
    fun t => rfl
  have hiter : ∀ k : ℕ, (updateIter Scoreboard.init k).time_left = 100 - k / 60 := by
    intro k
    induction k with
    | zero => simp [updateIter, Scoreboard.init]
    | succ k ih =>
      have hred : (updateIter Scoreboard.init (k + 1)).time_left =
          (updateIter Scoreboard.init k).time_left - 1 / 60 := hstep _
      rw [hred, ih]
      push_cast
      ring
  refine ⟨rfl, ?_, rfl, rfl, rfl, ?_, hiter n, ?_⟩
  · rw [hstep]
    linarith
  · exact decide_eq_true_iff
  · rw [show ((updateIter Scoreboard.init n).update).2 =
        decide (((updateIter Scoreboard.init n).update).1.time_left ≤ 0) from rfl,
      decide_eq_true_iff, hstep, hiter n]
    constructor
    · intro hle
      have h6 : (6000 : ℚ) ≤ (n : ℚ) + 1 := by linarith
      exact_mod_cast h6
    · intro hge
      have h6 : (6000 : ℚ) ≤ (n : ℚ) + 1 := by exact_mod_cast hge
      linarith

/-- C6: every freshly constructed world — first start or restart in any
state — has exactly 1 player (the single `player` field of `World`,
modelling `GroupSingle`), 21 walls, 12 monsters, 28 coins, 0 portals and
the fresh scoreboard (0 coins, 100.0 time, 0 busts, 5 portals, 0
points); and the restart key in any state yields exactly
`initialise_game_objects`, independent of the previous world — no state
carries over. -/
theorem claim_C6 (sz : SpriteSizes) (st : GState) (w : World) :
    (initialise_game_objects sz).walls.length = 21 ∧
    (initialise_game_objects sz).monsters.length = 12 ∧
    (initialise_game_objects sz).coins.length = 28 ∧
    (initialise_game_objects sz).portals = [] ∧
    (initialise_game_objects sz).scoreboard = ⟨0, 100, 0, 5, 0⟩ ∧
    handle_keydown sz GKey.kr st w = (GState.playing, initialise_game_objects sz, true) := by
  refine ⟨rfl, rfl, rfl, rfl, rfl, ?_⟩
  cases st <;> simp [handle_keydown]

/-- C8: per-monster update order. If the monster's box intersects the
player's box, its speed is zeroed, the caught-by-monster game-over is
signalled, and nothing else happens to it this tick (portals and busts
untouched). Otherwise it translates along its fixed axis by its speed;
on wall overlap the translation is reverted and the speed negated
exactly once, else the speed is unchanged — afterwards the monster (if
it survives the portal check) is exactly the move-resolved one. -/
theorem claim_C8 (m : Monster) (p : Box) (ws ps : List Box) :
    (intersects p m.box = true →
      Monster.update m p ws ps = ⟨some { m with speed := 0 }, ps, 0, true⟩) ∧
    (intersects p m.box = false →
      (ws.any (fun wl => intersects m.movedBox wl) = true →
        m.moveResolve ws = { m with speed := -m.speed }) ∧
      (ws.any (fun wl => intersects m.movedBox wl) = false →
        m.moveResolve ws = { m with box := m.movedBox }) ∧
      ((Monster.update m p ws ps).monster = some (m.moveResolve ws) ∨
       (Monster.update m p ws ps).monster = none)) := by
  constructor
  · intro h
    simp [Monster.update, h]
  · intro h
    refine ⟨fun hw => ?_, fun hw => ?_, ?_⟩
    · simp [Monster.moveResolve, hw]
    · simp [Monster.moveResolve, hw]
    · by_cases hh : ps.any (fun q => intersects (m.moveResolve ws).box q) = true
      · right
        simp [Monster.update, h, hh]
      · left
        simp [Monster.update, h, Bool.not_eq_true _ ▸ hh]

/-- C8 witness: the three branches at concrete inputs — a monster on the
player stops with speed 0; a monster into a wall bounces (speed negated,
translation reverted); a monster in the open moves by its speed. -/
theorem claim_C8_witness :
    intersects (⟨5, 5, 10, 10⟩ : Box) (⟨0, 0, 10, 10⟩ : Box) = true ∧
    Monster.update ⟨⟨0, 0, 10, 10⟩, 2, Axis.horizontal⟩ ⟨5, 5, 10, 10⟩ [] [] =
      ⟨some ⟨⟨0, 0, 10, 10⟩, 0, Axis.horizontal⟩, [], 0, true⟩ ∧
    (⟨⟨0, 0, 10, 10⟩, 2, Axis.horizontal⟩ : Monster).moveResolve [⟨10, 0, 5, 10⟩] =
      ⟨⟨0, 0, 10, 10⟩, -2, Axis.horizontal⟩ ∧
    (⟨⟨0, 0, 10, 10⟩, 2, Axis.horizontal⟩ : Monster).moveResolve [] =
      { (⟨⟨0, 0, 10, 10⟩, 2, Axis.horizontal⟩ : Monster) with
        box := (⟨⟨0, 0, 10, 10⟩, 2, Axis.horizontal⟩ : Monster).movedBox } :=
  ⟨by with_unfolding_all decide,
   (claim_C8 ⟨⟨0, 0, 10, 10⟩, 2, Axis.horizontal⟩ ⟨5, 5, 10, 10⟩ [] []).1 (by with_unfolding_all decide),
   (claim_C8 ⟨⟨0, 0, 10, 10⟩, 2, Axis.horizontal⟩ ⟨500, 500, 10, 10⟩ [⟨10, 0, 5, 10⟩] []).2
     (by with_unfolding_all decide) |>.1 (by with_unfolding_all decide),
   (claim_C8 ⟨⟨0, 0, 10, 10⟩, 2, Axis.horizontal⟩ ⟨500, 500, 10, 10⟩ [] []).2
     (by with_unfolding_all decide) |>.2.1 (by with_unfolding_all decide)⟩

/-- C9: `Scoreboard.new_portal` decrements `portals_remaining`
unconditionally — no lower-bound check — and `Portal.__init__`
(`Portal.create`) calls it on every construction, so constructing a
Portal when `portals_remaining = 0` drives the counter to −1. -/
theorem claim_C9 (sb : Scoreboard) (wq hq cx cy : ℚ) :
    (sb.new_portal).portals_remaining = sb.portals_remaining - 1 ∧
    (Portal.create wq hq cx cy sb).2 = sb.new_portal ∧
    (sb.portals_remaining = 0 →
      ((Portal.create wq hq cx cy sb).2).portals_remaining < 0) := by
  refine ⟨rfl, rfl, fun h => ?_⟩
  simp [Portal.create, Scoreboard.new_portal, h]

/-- C9 witness: a scoreboard with exhausted portal budget goes negative
when a Portal is constructed anyway. -/
theorem claim_C9_witness :
    (⟨0, 100, 0, 0, 0⟩ : Scoreboard).portals_remaining = 0 ∧
    ((Portal.create 10 10 5 5 ⟨0, 100, 0, 0, 0⟩).2).portals_remaining < 0 :=
  ⟨rfl, (claim_C9 ⟨0, 100, 0, 0, 0⟩ 10 10 5 5).2.2 rfl⟩

/-- C5: when the player's right edge exceeds 1050 at the start of a
playing tick, the tick ends immediately in GameOver(reached-exit) and
everything else is skipped: the returned world is the input world
unchanged (no movement, no coin collection, no monster, coin, portal or
scoreboard update) and the frame is not rendered. -/
theorem claim_C5 (keys : Keys) (w : World)
    (h : (1050 : ℚ) < w.player.box.right) :
    tick keys w = (w, GState.gameOver Reason.reachedExit, false) := by
  have hp : w.player.update keys w.walls w.coins = ⟨w.player, w.coins, 0, true⟩ := by
    unfold Player.update
    rw [if_pos h]
  unfold tick
  rw [hp]
  rfl

/-- C5 witness: a player with right edge 1055 ends the tick at once. -/
theorem claim_C5_witness :
    (1050 : ℚ) < exW5.player.box.right ∧
    tick keysNone exW5 = (exW5, GState.gameOver Reason.reachedExit, false) :=
  ⟨by with_unfolding_all decide, claim_C5 keysNone exW5 (by with_unfolding_all decide)⟩

/-- C2 (counterexample): the claim says `coins_collected` increments by
1 per removed coin. In `exW2` the player overlaps two distinct coins;
the tick removes both from the live set, yet `coins_collected` ends at
1, not 2 — `Player.update` calls `scoreboard.coin_collected()` once per
tick, however many coins the single `spritecollide(..., True)` kill
removed (main.py:159-162). -/
theorem claim_C2_counterexample :
    exW2.coins.length = 2 ∧
    exW2.scoreboard.coins_collected = 0 ∧
    (tick keysNone exW2).1.coins = [] ∧
    (tick keysNone exW2).1.scoreboard.coins_collected = 1 := by
  with_unfolding_all decide

/-- C2 (amended): on a playing tick not ended by the exit check, every
coin overlapping the moved player is removed from the live set, and
`coins_collected` increments by exactly 1 if at least one coin was
removed (and by 0 otherwise) — one increment per tick, not per coin. -/
theorem claim_C2 (keys : Keys) (w : World)
    (h : ¬ (1050 : ℚ) < w.player.box.right) :
    (tick keys w).1.coins =
      w.coins.filter (fun c => !(intersects (w.player.moveResolve keys w.walls) c)) ∧
    (tick keys w).1.scoreboard.coins_collected =
      w.scoreboard.coins_collected +
        (if w.coins.any (fun c => intersects (w.player.moveResolve keys w.walls) c)
         then 1 else 0) := by
  have hp : w.player.update keys w.walls w.coins =
      ⟨{ w.player with box := w.player.moveResolve keys w.walls },
       w.coins.filter (fun c => !(intersects (w.player.moveResolve keys w.walls) c)),
       if w.coins.any (fun c => intersects (w.player.moveResolve keys w.walls) c)
       then 1 else 0, false⟩ := by
    unfold Player.update
    rw [if_neg h]
  unfold tick
  rw [hp]
  dsimp only
  rw [if_neg Bool.false_ne_true]
  constructor
  · rw [tickAfterPlayer_coins]
  · rw [tickAfterPlayer_sb_coins]
    dsimp only
    by_cases hc : w.coins.any (fun c => intersects (w.player.moveResolve keys w.walls) c) = true
    · rw [hc]
      simp [Scoreboard.coin_collected]
    · rw [Bool.not_eq_true] at hc
      rw [hc]
      simp

/-- C2 witness: the amended theorem at the two-coin world. -/
theorem claim_C2_witness :
    (¬ (1050 : ℚ) < exW2.player.box.right) ∧
    ((tick keysNone exW2).1.coins =
      exW2.coins.filter (fun c => !(intersects (exW2.player.moveResolve keysNone exW2.walls) c)) ∧
     (tick keysNone exW2).1.scoreboard.coins_collected =
      exW2.scoreboard.coins_collected +
        (if exW2.coins.any (fun c => intersects (exW2.player.moveResolve keysNone exW2.walls) c)
         then 1 else 0)) :=
  ⟨by with_unfolding_all decide, claim_C2 keysNone exW2 (by with_unfolding_all decide)⟩

/-- C3 (counterexample): the claim says `points` equals
`coins_collected * 100 + ghosts_busted * 50` at every observation point,
including the GameOver screen. In `exW3` the player collects a coin and
is then caught by a monster in the same tick: the tick ends in GameOver
with `coins_collected = 1` but `points = 0`, because `points` is only
recomputed inside `Scoreboard.update` (main.py:236), which is skipped
when the monster phase ends the game. -/
theorem claim_C3_counterexample :
    (tick keysNone exW3).2.1 = GState.gameOver Reason.caughtByMonster ∧
    (tick keysNone exW3).1.scoreboard.coins_collected = 1 ∧
    (tick keysNone exW3).1.scoreboard.points = 0 ∧
    ¬ ((tick keysNone exW3).1.scoreboard.points =
        (tick keysNone exW3).1.scoreboard.coins_collected * 100 +
          (tick keysNone exW3).1.scoreboard.ghosts_busted * 50) := by
  with_unfolding_all decide

/-- C3 (amended): `points = coins_collected * 100 + ghosts_busted * 50`
holds after every `Scoreboard.update`, hence after every tick that ends
still in the playing state; it can fail on the GameOver screen when the
final tick skipped `Scoreboard.update` after a counter changed. -/
theorem claim_C3 (s : Scoreboard) (keys : Keys) (w w' : World) (st : GState) (r : Bool) :
    ((s.update).1.points =
      (s.update).1.coins_collected * 100 + (s.update).1.ghosts_busted * 50) ∧
    (tick keys w = (w', st, r) → st = GState.playing →
      w'.scoreboard.points =
        w'.scoreboard.coins_collected * 100 + w'.scoreboard.ghosts_busted * 50) := by
  constructor
  · simp
  · intro ht hst
    have h1 : (tick keys w).2.1 = GState.playing := by
      rw [ht]
      exact hst
    have h2 := tick_playing_points keys w h1
    have hw : (tick keys w).1 = w' := by rw [ht]
    rw [hw] at h2
    exact h2

/-- C3 witness: a quiet tick stays playing and the points invariant
holds afterwards. -/
theorem claim_C3_witness :
    (tick keysNone exWquiet).2.1 = GState.playing ∧
    (tick keysNone exWquiet).1.scoreboard.points =
      (tick keysNone exWquiet).1.scoreboard.coins_collected * 100 +
        (tick keysNone exWquiet).1.scoreboard.ghosts_busted * 50 :=
  ⟨by with_unfolding_all decide,
   (claim_C3 Scoreboard.init keysNone exWquiet (tick keysNone exWquiet).1
      (tick keysNone exWquiet).2.1 (tick keysNone exWquiet).2.2).2 rfl
     (by with_unfolding_all decide)⟩

/-- C7: portal placement while playing. With `portals_remaining = 0`
the space key is silently refused (state, world and running flag all
unchanged); with `portals_remaining > 0` exactly one portal appears at
the player's centre and `portals_remaining` drops by exactly 1; the
counter never goes negative through the handler; and no tick ever
changes `portals_remaining`, so within a session it only decreases. -/
theorem claim_C7 (sz : SpriteSizes) (keys : Keys) (w : World) :
    (w.scoreboard.portals_remaining = 0 →
      handle_keydown sz GKey.kspace GState.playing w = (GState.playing, w, true)) ∧
    (0 < w.scoreboard.portals_remaining →
      (handle_keydown sz GKey.kspace GState.playing w).2.1.portals =
        w.portals ++ [mkBoxCenter sz.doorW sz.doorH w.player.box.centerx w.player.box.centery] ∧
      (handle_keydown sz GKey.kspace GState.playing w).2.1.scoreboard.portals_remaining =
        w.scoreboard.portals_remaining - 1) ∧
    (0 ≤ w.scoreboard.portals_remaining →
      0 ≤ (handle_keydown sz GKey.kspace GState.playing w).2.1.scoreboard.portals_remaining) ∧
    ((tick keys w).1.scoreboard.portals_remaining = w.scoreboard.portals_remaining) := by
  have hred : handle_keydown sz GKey.kspace GState.playing w =
      if 0 < w.scoreboard.portals_remaining then
        (GState.playing,
         { w with
             portals := w.portals ++ [(Portal.create sz.doorW sz.doorH
               w.player.box.centerx w.player.box.centery w.scoreboard).1],
             scoreboard := (Portal.create sz.doorW sz.doorH w.player.box.centerx
               w.player.box.centery w.scoreboard).2 }, true)
      else (GState.playing, w, true) := rfl
  refine ⟨fun h0 => ?_, fun hpos => ?_, fun hnn => ?_, tick_sb_portalsRem keys w⟩
  · rw [hred, if_neg (by omega)]
  · rw [hred, if_pos hpos]
    exact ⟨rfl, rfl⟩
  · rw [hred]
    by_cases hp : 0 < w.scoreboard.portals_remaining
    · rw [if_pos hp]
      show 0 ≤ w.scoreboard.portals_remaining - 1
      omega
    · rw [if_neg hp]
      exact hnn

/-- C7 witness: refusal at an exhausted budget, and creation plus exact
decrement at a budget of 5. -/
theorem claim_C7_witness :
    exW7zero.scoreboard.portals_remaining = 0 ∧
    handle_keydown exSizes GKey.kspace GState.playing exW7zero =
      (GState.playing, exW7zero, true) ∧
    (0 : ℤ) < exWquiet.scoreboard.portals_remaining ∧
    (handle_keydown exSizes GKey.kspace GState.playing exWquiet).2.1.portals =
      exWquiet.portals ++ [mkBoxCenter exSizes.doorW exSizes.doorH
        exWquiet.player.box.centerx exWquiet.player.box.centery] ∧
    (handle_keydown exSizes GKey.kspace GState.playing exWquiet).2.1.scoreboard.portals_remaining =
      exWquiet.scoreboard.portals_remaining - 1 ∧
    0 ≤ (handle_keydown exSizes GKey.kspace GState.playing exW7zero).2.1.scoreboard.portals_remaining :=
  ⟨rfl,
   (claim_C7 exSizes keysNone exW7zero).1 rfl,
   by decide,
   ((claim_C7 exSizes keysNone exWquiet).2.1 (by decide)).1,
   ((claim_C7 exSizes keysNone exWquiet).2.1 (by decide)).2,
   (claim_C7 exSizes keysNone exW7zero).2.2.1 (by decide)⟩

/-- C10: after a monster triggers caught-by-monster, every later monster
in the group still runs its full update that same tick — the surviving
monsters, the portal group and the scoreboard produced by the monster
phase do not depend on the game-over reason accumulated so far — and
when a tick ends caught-by-monster, the returned world is exactly the
monster-phase output: the portal and scoreboard phases are skipped
(`time_left` unchanged) and the frame is not rendered. -/
theorem claim_C10 (p : Box) (ws : List Box) (ms : List Monster) (ports : List Box)
    (sb : Scoreboard) (g g' : Option Reason) (keys : Keys) (w : World) :
    ((monstersPhase p ws ms ports sb g).survivors =
        (monstersPhase p ws ms ports sb g').survivors ∧
     (monstersPhase p ws ms ports sb g).portals =
        (monstersPhase p ws ms ports sb g').portals ∧
     (monstersPhase p ws ms ports sb g).sb = (monstersPhase p ws ms ports sb g').sb) ∧
    ((tick keys w).2.1 = GState.gameOver Reason.caughtByMonster →
      (tick keys w).2.2 = false ∧
      (tick keys w).1.scoreboard.time_left = w.scoreboard.time_left ∧
      (tick keys w).1.monsters =
        (monstersPhase (w.player.update keys w.walls w.coins).player.box w.walls
          w.monsters w.portals
          (if (w.player.update keys w.walls w.coins).coinsCollectedInc = 1
           then w.scoreboard.coin_collected else w.scoreboard) none).survivors ∧
      (tick keys w).1.portals =
        (monstersPhase (w.player.update keys w.walls w.coins).player.box w.walls
          w.monsters w.portals
          (if (w.player.update keys w.walls w.coins).coinsCollectedInc = 1
           then w.scoreboard.coin_collected else w.scoreboard) none).portals ∧
      (tick keys w).1.scoreboard =
        (monstersPhase (w.player.update keys w.walls w.coins).player.box w.walls
          w.monsters w.portals
          (if (w.player.update keys w.walls w.coins).coinsCollectedInc = 1
           then w.scoreboard.coin_collected else w.scoreboard) none).sb) := by
  constructor
  · exact mphase_foldl_reason_indep p ws ms ⟨[], ports, sb, g⟩ ⟨[], ports, sb, g'⟩ rfl rfl rfl
  · intro h
    have he := tick_caught_after_player keys w h
    rw [he] at h ⊢
    rw [tickAfterPlayer_caught _ h]
    refine ⟨rfl, ?_, rfl, rfl, rfl⟩
    show (monstersPhase _ _ _ _ _ none).sb.time_left = w.scoreboard.time_left
    rw [monstersPhase_sb_time]
    by_cases hc : (w.player.update keys w.walls w.coins).coinsCollectedInc = 1
    · rw [if_pos hc]
      rfl
    · rw [if_neg hc]

/-- C10 witness: in `exW10` the first monster catches the player and the
second monster still walks into a portal and dies in the same tick; the
tick ends caught-by-monster with the monster-phase output and no
scoreboard-time update or render. -/
theorem claim_C10_witness :
    (tick keysNone exW10).2.1 = GState.gameOver Reason.caughtByMonster ∧
    ((tick keysNone exW10).2.2 = false ∧
     (tick keysNone exW10).1.scoreboard.time_left = exW10.scoreboard.time_left ∧
     (tick keysNone exW10).1.monsters =
       (monstersPhase (exW10.player.update keysNone exW10.walls exW10.coins).player.box
         exW10.walls exW10.monsters exW10.portals
         (if (exW10.player.update keysNone exW10.walls exW10.coins).coinsCollectedInc = 1
          then exW10.scoreboard.coin_collected else exW10.scoreboard) none).survivors ∧
     (tick keysNone exW10).1.portals =
       (monstersPhase (exW10.player.update keysNone exW10.walls exW10.coins).player.box
         exW10.walls exW10.monsters exW10.portals
         (if (exW10.player.update keysNone exW10.walls exW10.coins).coinsCollectedInc = 1
          then exW10.scoreboard.coin_collected else exW10.scoreboard) none).portals ∧
     (tick keysNone exW10).1.scoreboard =
       (monstersPhase (exW10.player.update keysNone exW10.walls exW10.coins).player.box
         exW10.walls exW10.monsters exW10.portals
         (if (exW10.player.update keysNone exW10.walls exW10.coins).coinsCollectedInc = 1
          then exW10.scoreboard.coin_collected else exW10.scoreboard) none).sb) :=
  ⟨by with_unfolding_all decide,
   (claim_C10 ⟨0, 0, 1, 1⟩ [] [] [] Scoreboard.init none none keysNone exW10).2
     (by with_unfolding_all decide)⟩

end Doors
